import Mathlib

/-!
# Verification of the document-to-report pipeline (tum-gen-ai-24)

A shallow embedding, in Lean 4, of the parts of the repository that the
specification's testable claims are about:

* the Structured Analysis Extractor's line-by-line parse of the model's
  response (`src/web/app/lib/openai.ts`, `analyzeFinancialData`);
* the file-search route and the UI search helper
  (`src/web/app/api/enhanced/files/search/route.ts`,
  `src/web/components/EnhancedChatInterface.tsx`);
* the report-generation handler and the client-side report-status values
  (`handleGenerateReport` in `EnhancedChatInterface.tsx` and
  `AdvancedChatInterface.tsx`);
* the upload handler's "Code" header-row location
  (`src/web/app/api/financial/upload/route.ts`);
* the percentage-change computation of `ReportDisplay.tsx`;
* `transformTableData` of the upload proxy route.

JavaScript strings are modelled as Lean `String`s.  The JS string
primitives the source uses (`split`, `includes`, `trim`, `toLowerCase`)
are implemented structurally over the character list of the string, so
every definition evaluates by kernel reduction on concrete inputs.
JS `Array.push` becomes list append (emission order is preserved), and JS
dynamic values (for `transformTableData`) are an inductive `JVal` type.
-/

namespace Spec2Proof

/-! ## JavaScript string primitives -/

/-- Splitting a character list at every occurrence of the separator
character, JS `String.prototype.split` with a one-character separator:
no merging of adjacent separators, leading/trailing separators produce
empty pieces, and splitting the empty string gives one empty piece. -/
def charsSplitOn (sep : Char) : List Char → List (List Char)
  | [] => [[]]
  | c :: r =>
    if c = sep then [] :: charsSplitOn sep r
    else
      match charsSplitOn sep r with
      | h :: t => (c :: h) :: t
      | [] => [[c]]

/-- Substring search on character lists: does `pat` occur inside `s`? -/
def charsContains : List Char → List Char → Bool
  | s@(_ :: r), pat => pat.isPrefixOf s || charsContains r pat
  | [], pat => pat.isEmpty

/-- JS `String.prototype.trim`: drop whitespace from both ends. -/
def trimChars (l : List Char) : List Char :=
  ((l.dropWhile Char.isWhitespace).reverse.dropWhile Char.isWhitespace).reverse

/-- JS `String.prototype.includes`. -/
def strContains (s pat : String) : Bool :=
  charsContains s.data pat.data

/-- JS `str.split(c)` for a one-character separator, as Lean strings. -/
def jsSplit (s : String) (sep : Char) : List String :=
  (charsSplitOn sep s.data).map fun l => (⟨l⟩ : String)

/-- JS `String.prototype.trim`, as Lean strings. -/
def jsTrim (s : String) : String := ⟨trimChars s.data⟩

/-- JS `String.prototype.toLowerCase` (ASCII range, which is all the
source compares against). -/
def jsToLower (s : String) : String := ⟨s.data.map Char.toLower⟩

/-! ## The Structured Analysis Extractor (`analyzeFinancialData`) -/

/-- One parsed financial-table row, `{indicator, currentYear, previousYear}`
as pushed by the parser in `analyzeFinancialData`. -/
structure Row where
  indicator : String
  currentYear : String
  previousYear : String
deriving Repr, DecidableEq

/-- The active section of the line scanner (`currentSection` in the source). -/
inductive Sect where
  | summary
  | balanceSheet
  | incomeStatement
  | cashFlowStatement
deriving Repr, DecidableEq

/-- The scanner state: accumulated narrative text, the three tables, and the
active section. -/
structure ParseState where
  summary : String
  balanceSheet : List Row
  incomeStatement : List Row
  cashFlowStatement : List Row
  currentSection : Sect
deriving Repr, DecidableEq

/-- The cell extraction of a candidate table row:
`line.split('|').map(cell => cell.trim()).filter(cell => cell)`. -/
def cells (line : String) : List String :=
  ((charsSplitOn '|' line.data).map trimChars).filter (fun c => !c.isEmpty)
    |>.map fun l => (⟨l⟩ : String)

/-- The row built from the first three cells
(`indicator: cells[0], currentYear: cells[1], previousYear: cells[2]`). -/
def mkRow (line : String) : Row :=
  ⟨(cells line).getD 0 "", (cells line).getD 1 "", (cells line).getD 2 ""⟩

/-- One iteration of the `for (const line of lines)` loop of
`analyzeFinancialData` (src/web/app/lib/openai.ts, lines 87-125), translated
branch for branch. -/
def processLine (st : ParseState) (line : String) : ParseState :=
  if strContains line "#### Balance Sheet Table" then
    { st with currentSection := .balanceSheet }
  else if strContains line "#### Income Statement Table" then
    { st with currentSection := .incomeStatement }
  else if strContains line "#### Cash Flow Statement Table" then
    { st with currentSection := .cashFlowStatement }
  else if st.currentSection == .summary && !strContains line "####" then
    { st with summary := st.summary ++ line ++ "\n" }
  else if st.currentSection != .summary && strContains line "|"
      && !strContains line "---" then
    if 3 ≤ (cells line).length then
      match st.currentSection with
      | .balanceSheet =>
          { st with balanceSheet := st.balanceSheet ++ [mkRow line] }
      | .incomeStatement =>
          { st with incomeStatement := st.incomeStatement ++ [mkRow line] }
      | .cashFlowStatement =>
          { st with cashFlowStatement := st.cashFlowStatement ++ [mkRow line] }
      | .summary => st
    else st
  else st

/-- The result of the extractor: narrative summary plus the three tables. -/
structure AnalysisOut where
  summary : String
  balanceSheet : List Row
  incomeStatement : List Row
  cashFlowStatement : List Row
deriving Repr, DecidableEq

/-- The scan of a list of lines, starting from the empty state, with the
final `summary.trim()` applied (source line 127). -/
def analyzeLines (ls : List String) : AnalysisOut :=
  let f := ls.foldl processLine ⟨"", [], [], [], .summary⟩
  ⟨jsTrim f.summary, f.balanceSheet, f.incomeStatement, f.cashFlowStatement⟩

/-- The parsing phase of `analyzeFinancialData`, applied to the model
response `content` (`const lines = content.split('\n')`, then the scan).
The surrounding prompt construction and the network call produce this
`content`; the parse itself is the code under verification. -/
def analyzeFinancialData (content : String) : AnalysisOut :=
  analyzeLines (jsSplit content '\n')

/-- Does the line contain one of the three recognized heading markers? -/
def hasMarker (l : String) : Bool :=
  strContains l "#### Balance Sheet Table"
    || strContains l "#### Income Statement Table"
    || strContains l "#### Cash Flow Statement Table"

/-- The parser's effective row test: the line contains `|`, does not
contain the substring `---`, and has at least three cells. -/
def rowParses (l : String) : Bool :=
  strContains l "|" && !strContains l "---" && decide (3 ≤ (cells l).length)

/-- Appending the parsed row to the table of the active section, as the
three `push` branches of the source do. -/
def pushRow (st : ParseState) (l : String) : ParseState :=
  match st.currentSection with
  | .balanceSheet => { st with balanceSheet := st.balanceSheet ++ [mkRow l] }
  | .incomeStatement =>
      { st with incomeStatement := st.incomeStatement ++ [mkRow l] }
  | .cashFlowStatement =>
      { st with cashFlowStatement := st.cashFlowStatement ++ [mkRow l] }
  | .summary => st

/-- The rows the state holds for a given table section. -/
def sectionRows (s : Sect) (st : ParseState) : List Row :=
  match s with
  | .balanceSheet => st.balanceSheet
  | .incomeStatement => st.incomeStatement
  | .cashFlowStatement => st.cashFlowStatement
  | .summary => []

/-- The lines of the input joined back together, each terminated by a
newline — the shape in which the scanner accumulates the narrative. -/
def joinNL : List String → String
  | [] => ""
  | l :: ls => l ++ "\n" ++ joinNL ls

/-! ### Behaviour of a single scanner step -/

theorem processLine_summary_keep (st : ParseState) (l : String)
    (h : st.currentSection = .summary) (hm : hasMarker l = false)
    (h4 : strContains l "####" = false) :
    processLine st l = { st with summary := st.summary ++ l ++ "\n" } := by
  simp only [hasMarker, Bool.or_eq_false_iff] at hm
  obtain ⟨⟨h1, h2⟩, h3⟩ := hm
  simp [processLine, h1, h2, h3, h, h4]

theorem processLine_summary_skip (st : ParseState) (l : String)
    (h : st.currentSection = .summary) (hm : hasMarker l = false)
    (h4 : strContains l "####" = true) :
    processLine st l = st := by
  simp only [hasMarker, Bool.or_eq_false_iff] at hm
  obtain ⟨⟨h1, h2⟩, h3⟩ := hm
  simp [processLine, h1, h2, h3, h, h4]

/-- A whole scan that never meets a heading marker stays in the summary
section, touches no table, and accumulates exactly the lines that do not
contain `####`. -/
theorem foldl_noMarker (ls : List String) :
    ∀ st : ParseState, st.currentSection = .summary →
    (∀ l ∈ ls, hasMarker l = false) →
    ls.foldl processLine st =
      ⟨st.summary ++ joinNL (ls.filter fun l => !strContains l "####"),
        st.balanceSheet, st.incomeStatement, st.cashFlowStatement, .summary⟩ := by
  induction ls with
  | nil =>
      intro st hsect _
      obtain ⟨s, b, i, c, sec⟩ := st
      simp only [ParseState.currentSection] at hsect
      subst hsect
      simp [joinNL, String.append_empty]
  | cons l ls ih =>
      intro st hsect hm
      have hml : hasMarker l = false := hm l (List.mem_cons_self l ls)
      have hmls : ∀ x ∈ ls, hasMarker x = false :=
        fun x hx => hm x (List.mem_cons_of_mem l hx)
      by_cases h4 : strContains l "####" = true
      · rw [List.foldl_cons, processLine_summary_skip st l hsect hml h4,
          ih st hsect hmls]
        simp [joinNL, h4]
      · have h4' : strContains l "####" = false := by
          simpa using h4
        rw [List.foldl_cons, processLine_summary_keep st l hsect hml h4']
        rw [ih { st with summary := st.summary ++ l ++ "\n" } hsect hmls]
        simp [joinNL, h4', String.append_assoc]

/-- C1, counterexample: the response `"#### Other"` contains none of the
three recognized heading markers, yet the narrative the extractor returns
is `""`, not the full input text — lines containing `####` are dropped
from the narrative even when they are not recognized headings. -/
theorem C1_counterexample :
    hasMarker "#### Other" = false ∧
    (analyzeFinancialData "#### Other").balanceSheet = [] ∧
    (analyzeFinancialData "#### Other").incomeStatement = [] ∧
    (analyzeFinancialData "#### Other").cashFlowStatement = [] ∧
    (analyzeFinancialData "#### Other").summary ≠ "#### Other" := by
  refine ⟨by decide, by decide, by decide, by decide, by decide⟩

/-- C1, amended: for every model response none of whose lines contains a
recognized heading marker, the extractor terminates and returns three
empty tables, and the narrative equals the concatenation of the lines not
containing `####` (each newline-terminated), with surrounding whitespace
trimmed.  When the response contains no `####` at all and carries no
leading/trailing whitespace, this narrative is the full input text. -/
theorem C1_amended_no_headings (content : String)
    (h : ∀ l ∈ jsSplit content '\n', hasMarker l = false) :
    analyzeFinancialData content =
      ⟨jsTrim (joinNL ((jsSplit content '\n').filter
          fun l => !strContains l "####")), [], [], []⟩ := by
  unfold analyzeFinancialData analyzeLines
  rw [foldl_noMarker (jsSplit content '\n') _ rfl h]
  simp [String.empty_append]

/-- Witness for `C1_amended_no_headings` at the concrete response
`"hello\n#### x"`. -/
theorem C1_witness :
    (∀ l ∈ jsSplit "hello\n#### x" '\n', hasMarker l = false) ∧
    analyzeFinancialData "hello\n#### x" =
      ⟨jsTrim (joinNL ((jsSplit "hello\n#### x" '\n').filter
          fun l => !strContains l "####")), [], [], []⟩ :=
  ⟨by decide, C1_amended_no_headings "hello\n#### x" (by decide)⟩

/-- Inside a table section, on a line without heading markers, the scanner
either appends the row (when the row test passes) or leaves the state
untouched. -/
theorem processLine_table_char (st : ParseState) (l : String)
    (hs : st.currentSection ≠ .summary) (hm : hasMarker l = false) :
    processLine st l = if rowParses l then pushRow st l else st := by
  simp only [hasMarker, Bool.or_eq_false_iff] at hm
  obtain ⟨⟨h1, h2⟩, h3⟩ := hm
  simp only [processLine, h1, h2, h3, rowParses, pushRow]
  have hsb : (st.currentSection == Sect.summary) = false := by
    simpa using hs
  simp only [hsb, Bool.false_and, Bool.not_eq_true', if_false]
  by_cases hp : strContains l "|" = true
  · by_cases hd : strContains l "---" = true
    · simp [hp, hd, hs]
    · have hd' : strContains l "---" = false := by simpa using hd
      by_cases hc : 3 ≤ (cells l).length
      · simp [hp, hd', hc, hs]
      · simp [hp, hd', hc, hs]
  · have hp' : strContains l "|" = false := by simpa using hp
    simp [hp', hs]

/-- A heading line containing the balance-sheet marker switches the active
section to the balance sheet and changes nothing else. -/
theorem processLine_bs_heading (st : ParseState) (l : String)
    (h : strContains l "#### Balance Sheet Table" = true) :
    processLine st l = { st with currentSection := .balanceSheet } := by
  simp [processLine, h]

/-- A single step only ever appends to the balance-sheet table. -/
theorem processLine_bs_extend (st : ParseState) (l : String) :
    ∃ t, (processLine st l).balanceSheet = st.balanceSheet ++ t := by
  unfold processLine
  repeat' split
  all_goals first
    | exact ⟨[mkRow l], rfl⟩
    | exact ⟨[], (List.append_nil _).symm⟩

/-- A whole scan only ever appends to the balance-sheet table. -/
theorem foldl_bs_extend (ls : List String) :
    ∀ st : ParseState,
      ∃ t, (ls.foldl processLine st).balanceSheet = st.balanceSheet ++ t := by
  induction ls with
  | nil => exact fun st => ⟨[], (List.append_nil _).symm⟩
  | cons l ls ih =>
      intro st
      obtain ⟨t1, h1⟩ := processLine_bs_extend st l
      obtain ⟨t2, h2⟩ := ih (processLine st l)
      exact ⟨t1 ++ t2, by
        rw [List.foldl_cons, h2, h1, List.append_assoc]⟩

/-- While no line carries the balance-sheet marker, the scanner can neither
enter the balance-sheet section nor grow the balance-sheet table. -/
theorem processLine_no_bs (st : ParseState) (l : String)
    (h : strContains l "#### Balance Sheet Table" = false)
    (h1 : st.currentSection ≠ .balanceSheet) (h2 : st.balanceSheet = []) :
    (processLine st l).currentSection ≠ .balanceSheet ∧
      (processLine st l).balanceSheet = [] := by
  unfold processLine
  simp only [h, Bool.false_eq_true, if_false]
  repeat' split
  all_goals simp_all

/-- `processLine_no_bs`, iterated over a list of lines. -/
theorem foldl_no_bs (ls : List String) :
    ∀ st : ParseState,
      (∀ l ∈ ls, strContains l "#### Balance Sheet Table" = false) →
      st.currentSection ≠ .balanceSheet → st.balanceSheet = [] →
      (ls.foldl processLine st).currentSection ≠ .balanceSheet ∧
        (ls.foldl processLine st).balanceSheet = [] := by
  induction ls with
  | nil => exact fun st _ h1 h2 => ⟨h1, h2⟩
  | cons l ls ih =>
      intro st hm h1 h2
      obtain ⟨h1', h2'⟩ :=
        processLine_no_bs st l (hm l (List.mem_cons_self l ls)) h1 h2
      exact ih (processLine st l)
        (fun x hx => hm x (List.mem_cons_of_mem l hx)) h1' h2'

/-- Lines without markers that fail the row test leave the scanner state
completely unchanged, whatever table section is active. -/
theorem foldl_inert (ls : List String) (st : ParseState)
    (hs : st.currentSection ≠ .summary)
    (hm : ∀ l ∈ ls, hasMarker l = false ∧ rowParses l = false) :
    ls.foldl processLine st = st := by
  induction ls with
  | nil => rfl
  | cons l ls ih =>
      obtain ⟨hml, hrl⟩ := hm l (List.mem_cons_self l ls)
      have hstep : processLine st l = st := by
        rw [processLine_table_char st l hs hml, hrl]
        simp
      rw [List.foldl_cons, hstep]
      exact ih fun x hx => hm x (List.mem_cons_of_mem l hx)

/-- C2, counterexample: in this response an occurrence of the heading line
`#### Balance Sheet Table` is immediately followed — with no other heading
in between — by the line `Total Assets | 1,000,000 | 900,000`, yet the
first row of the balance-sheet table is the earlier `Cash` row: rows
emitted after a previous occurrence of the heading come first. -/
theorem C2_counterexample :
    (jsSplit "#### Balance Sheet Table\nCash | 1 | 2\n#### Balance Sheet Table\nTotal Assets | 1,000,000 | 900,000" '\n').getD 2 ""
        = "#### Balance Sheet Table" ∧
    (jsSplit "#### Balance Sheet Table\nCash | 1 | 2\n#### Balance Sheet Table\nTotal Assets | 1,000,000 | 900,000" '\n').getD 3 ""
        = "Total Assets | 1,000,000 | 900,000" ∧
    (analyzeFinancialData "#### Balance Sheet Table\nCash | 1 | 2\n#### Balance Sheet Table\nTotal Assets | 1,000,000 | 900,000").balanceSheet.head?
        = some ⟨"Cash", "1", "2"⟩ ∧
    (⟨"Cash", "1", "2"⟩ : Row) ≠ ⟨"Total Assets", "1,000,000", "900,000"⟩ := by
  refine ⟨by decide, by decide, by decide, by decide⟩

/-- C2, amended: if the *first* line carrying the balance-sheet marker is
followed by the line `Total Assets | 1,000,000 | 900,000`, with no heading
marker and no line passing the row test in between, then the extractor
yields `{indicator: "Total Assets", currentYear: "1,000,000",
previousYear: "900,000"}` as the first row of the balance-sheet table. -/
theorem C2_amended_first_bs_row (pre mid rest : List String)
    (hpre : ∀ l ∈ pre, strContains l "#### Balance Sheet Table" = false)
    (hmid : ∀ l ∈ mid, hasMarker l = false ∧ rowParses l = false) :
    (analyzeLines (pre ++ ["#### Balance Sheet Table"] ++ mid
        ++ ["Total Assets | 1,000,000 | 900,000"] ++ rest)).balanceSheet.head?
      = some ⟨"Total Assets", "1,000,000", "900,000"⟩ := by
  unfold analyzeLines
  simp only [List.foldl_append, List.foldl_cons, List.foldl_nil]
  set st0 : ParseState := ⟨"", [], [], [], .summary⟩ with hst0
  obtain ⟨hA1, hA2⟩ := foldl_no_bs pre st0 hpre (by simp [hst0]) (by simp [hst0])
  set stA := pre.foldl processLine st0 with hstA
  rw [processLine_bs_heading stA _ (by decide)]
  set stB : ParseState := { stA with currentSection := .balanceSheet } with hstB
  have hBsect : stB.currentSection ≠ Sect.summary := by simp [hstB]
  rw [foldl_inert mid stB hBsect hmid]
  have htarget :
      processLine stB "Total Assets | 1,000,000 | 900,000"
        = pushRow stB "Total Assets | 1,000,000 | 900,000" := by
    rw [processLine_table_char stB _ hBsect (by decide)]
    simp [show rowParses "Total Assets | 1,000,000 | 900,000" = true by decide]
  rw [htarget]
  have hpush :
      (pushRow stB "Total Assets | 1,000,000 | 900,000").balanceSheet
        = [⟨"Total Assets", "1,000,000", "900,000"⟩] := by
    simp only [pushRow, hstB]
    rw [show mkRow "Total Assets | 1,000,000 | 900,000"
        = ⟨"Total Assets", "1,000,000", "900,000"⟩ from by decide]
    simp [hA2]
  obtain ⟨t, ht⟩ :=
    foldl_bs_extend rest (pushRow stB "Total Assets | 1,000,000 | 900,000")
  simp only [ht, hpush, List.cons_append, List.nil_append, List.head?_cons]

/-- Witness for `C2_amended_first_bs_row` at a concrete response. -/
theorem C2_witness :
    (analyzeLines (["narrative intro"] ++ ["#### Balance Sheet Table"]
        ++ ["here are the figures:"]
        ++ ["Total Assets | 1,000,000 | 900,000"]
        ++ ["#### Income Statement Table", "Revenue | 5 | 4"])).balanceSheet.head?
      = some ⟨"Total Assets", "1,000,000", "900,000"⟩ :=
  C2_amended_first_bs_row ["narrative intro"] ["here are the figures:"]
    ["#### Income Statement Table", "Revenue | 5 | 4"] (by decide) (by decide)

/-- The separator-line notion the spec's words describe: a row composed
solely of dashes (with the pipes and spaces of a markdown separator row).
Stated for comparison with the code's actual test, which is substring
search for `---`. -/
def isSeparatorLineSpec (l : String) : Bool :=
  l.data.all fun c => c = '-' || c = '|' || c.isWhitespace

/-- C3, counterexample: the line `A --- B | 1 | 2` contains `|`, is not a
row composed solely of dashes, and splits into three non-empty cells, so
under the claim it would be appended — but the scanner drops every line
containing the substring `---` anywhere, so the balance-sheet table stays
empty. -/
theorem C3_counterexample :
    strContains "A --- B | 1 | 2" "|" = true ∧
    isSeparatorLineSpec "A --- B | 1 | 2" = false ∧
    3 ≤ (cells "A --- B | 1 | 2").length ∧
    (analyzeFinancialData
      "#### Balance Sheet Table\nA --- B | 1 | 2").balanceSheet = [] := by
  refine ⟨by decide, by decide, by decide, by decide⟩

/-- C3, amended: while a table section is active, a line containing no
heading marker appends a row exactly when it contains `|`, does **not
contain the substring `---`** (the code's separator test — not "is a row
composed solely of dashes"), and splitting on `|`, trimming and dropping
empty cells leaves at least three cells; the first three cells become
indicator/current-year/previous-year, the row is appended at the end of
the active table (order preserved, no deduplication), other tables and the
narrative are untouched, and a line failing the test changes nothing. -/
theorem C3_amended_row_test (st : ParseState) (l : String)
    (hs : st.currentSection ≠ .summary) (hm : hasMarker l = false) :
    processLine st l = (if rowParses l then pushRow st l else st) ∧
    sectionRows st.currentSection (pushRow st l)
      = sectionRows st.currentSection st ++ [mkRow l] ∧
    (∀ s : Sect, s ≠ st.currentSection →
      sectionRows s (pushRow st l) = sectionRows s st) ∧
    (pushRow st l).summary = st.summary ∧
    (rowParses l = false → processLine st l = st) := by
  refine ⟨processLine_table_char st l hs hm, ?_, ?_, ?_, ?_⟩
  · cases h : st.currentSection <;> simp_all [pushRow, sectionRows]
  · intro s hne
    cases h : st.currentSection <;> cases s <;>
      simp_all [pushRow, sectionRows]
  · cases h : st.currentSection <;> simp_all [pushRow]
  · intro hr
    rw [processLine_table_char st l hs hm, hr]
    simp

/-- Witness for `C3_amended_row_test`: a concrete state already holding a
row with the same indicator, so the appended row is not deduplicated. -/
theorem C3_witness :
    processLine ⟨"", [⟨"A", "9", "8"⟩], [], [], .balanceSheet⟩ "A | 1 | 2"
      = (if rowParses "A | 1 | 2"
          then pushRow ⟨"", [⟨"A", "9", "8"⟩], [], [], .balanceSheet⟩ "A | 1 | 2"
          else ⟨"", [⟨"A", "9", "8"⟩], [], [], .balanceSheet⟩) ∧
    sectionRows .balanceSheet
        (pushRow ⟨"", [⟨"A", "9", "8"⟩], [], [], .balanceSheet⟩ "A | 1 | 2")
      = sectionRows .balanceSheet ⟨"", [⟨"A", "9", "8"⟩], [], [], .balanceSheet⟩
          ++ [mkRow "A | 1 | 2"] ∧
    (∀ s : Sect, s ≠ Sect.balanceSheet →
      sectionRows s
          (pushRow ⟨"", [⟨"A", "9", "8"⟩], [], [], .balanceSheet⟩ "A | 1 | 2")
        = sectionRows s ⟨"", [⟨"A", "9", "8"⟩], [], [], .balanceSheet⟩) ∧
    (pushRow ⟨"", [⟨"A", "9", "8"⟩], [], [], .balanceSheet⟩ "A | 1 | 2").summary
      = "" ∧
    (rowParses "A | 1 | 2" = false →
      processLine ⟨"", [⟨"A", "9", "8"⟩], [], [], .balanceSheet⟩ "A | 1 | 2"
        = ⟨"", [⟨"A", "9", "8"⟩], [], [], .balanceSheet⟩) :=
  C3_amended_row_test ⟨"", [⟨"A", "9", "8"⟩], [], [], .balanceSheet⟩ "A | 1 | 2"
    (by decide) (by decide)

/-! ## File search (`/api/enhanced/files/search` and `searchFiles`) -/

/-- The possible responses of the search route handler. -/
inductive SearchRouteResult where
  | badRequest (msg : String)
  | okResults (results : List String)
  | serverError (msg : String)
deriving Repr, DecidableEq

/-- The POST handler of `src/web/app/api/enhanced/files/search/route.ts`:
a missing or empty (falsy) `query` is rejected with a 400 validation
error; otherwise the request is forwarded to the backend, whose results
are returned, a failed backend call becoming a 500 error. -/
def searchRoutePOST (query : Option String) (backendOk : Bool)
    (backendResults : List String) : SearchRouteResult :=
  match query with
  | none => .badRequest "Query parameter is required"
  | some q =>
    if q.isEmpty then .badRequest "Query parameter is required"
    else if backendOk then .okResults backendResults
    else .serverError "Failed to search files"

/-- Is the route response an error rather than a result set? -/
def isErrorResponse : SearchRouteResult → Bool
  | .okResults _ => false
  | _ => true

/-- Does `searchFiles` (EnhancedChatInterface.tsx, lines 132-157) issue a
network request for this query?  A blank query returns early. -/
def searchFilesIssuesRequest (query : String) : Bool :=
  !(jsTrim query).isEmpty

/-- The result list `searchFiles` stores: `[]` for a blank query (without
any request), otherwise the fetched `data.results || []`. -/
def searchFilesResult (query : String)
    (fetched : Option (List String)) : List String :=
  if (jsTrim query).isEmpty then [] else fetched.getD []

/-- C4, counterexample: invoking the file-search route with an empty query
string yields a 400 validation error, not an empty result set. -/
theorem C4_counterexample :
    searchRoutePOST (some "") true ["doc1"]
        = .badRequest "Query parameter is required" ∧
    isErrorResponse (searchRoutePOST (some "") true ["doc1"]) = true ∧
    isErrorResponse (.okResults []) = false := by
  refine ⟨rfl, rfl, rfl⟩

/-- C4, amended: the UI helper `searchFiles` maps every blank query to an
empty result set without issuing a request, while the HTTP search route
rejects an empty query with a 400 "Query parameter is required" error —
so the empty-query invocation is an empty result set at the UI layer but
a validation error at the route layer. -/
theorem C4_amended_empty_query (q : String) (fetched : Option (List String))
    (backendOk : Bool) (res : List String) (h : jsTrim q = "") :
    searchFilesResult q fetched = [] ∧
    searchFilesIssuesRequest q = false ∧
    isErrorResponse (searchRoutePOST (some "") backendOk res) = true := by
  have he : (jsTrim q).isEmpty = true := by rw [h]; rfl
  refine ⟨?_, ?_, ?_⟩
  · simp [searchFilesResult, he]
  · simp [searchFilesIssuesRequest, he]
  · cases backendOk <;> rfl

/-- Witness for `C4_amended_empty_query` at the whitespace query `"  "`. -/
theorem C4_witness :
    searchFilesResult "  " (some ["doc1"]) = [] ∧
    searchFilesIssuesRequest "  " = false ∧
    isErrorResponse (searchRoutePOST (some "") true ["doc1"]) = true :=
  C4_amended_empty_query "  " (some ["doc1"]) true ["doc1"] (by decide)

/-! ## The report download operation (C5) -/

/-- Status of a report job held by the orchestrator. -/
inductive JobStatusM where
  | generating
  | completed
  | error
deriving Repr, DecidableEq

/-- A report job as the orchestrator stores it: status, optional rendered
artifact bytes, optional error message. -/
structure ReportJobM where
  status : JobStatusM
  artifact : Option (List Nat)
  errMsg : Option String
deriving Repr, DecidableEq

/-- Result of a download request. -/
inductive DownloadResult where
  | ok (bytes : List Nat)
  | notReady
  | notFound
deriving Repr, DecidableEq

/-- Modelled from the spec: the `download(report_id)` operation of the
Report Job Orchestrator (§4.5).  The FastAPI backend that implements it is
not under `src/` — the Next.js routes merely proxy the call
(`src/web/app/api/financial/export/[reportId]/route.ts`) or emit a
placeholder workbook (`src/unnamed/part_014`).  Per the spec, download is
valid only when the job's status is `completed`; an unknown id fails "not
found", any other status fails with the distinct "not ready" condition. -/
def downloadReport (store : String → Option ReportJobM)
    (id : String) : DownloadResult :=
  match store id with
  | none => .notFound
  | some job =>
    match job.status with
    | .completed => .ok (job.artifact.getD [])
    | _ => .notReady

/-- C5: while a stored report job is `generating`, download fails "not
ready" (distinct from "not found"); it returns the artifact bytes exactly
when the status is `completed`. -/
theorem C5_download_gating (store : String → Option ReportJobM)
    (id : String) (job : ReportJobM) (h : store id = some job) :
    (job.status = .generating →
      downloadReport store id = .notReady ∧
        DownloadResult.notReady ≠ .notFound) ∧
    (job.status = .completed →
      downloadReport store id = .ok (job.artifact.getD [])) ∧
    (∀ b, downloadReport store id = .ok b → job.status = .completed) := by
  have hd : downloadReport store id
      = match job.status with
        | .completed => .ok (job.artifact.getD [])
        | _ => .notReady := by
    unfold downloadReport
    rw [h]
  refine ⟨?_, ?_, ?_⟩
  · intro hg
    rw [hd, hg]
    exact ⟨rfl, by simp⟩
  · intro hc
    rw [hd, hc]
  · intro b hb
    rw [hd] at hb
    cases hs : job.status <;> rw [hs] at hb <;> simp_all

/-- Witness for `C5_download_gating` on a concrete two-job store. -/
theorem C5_witness :
    downloadReport
        (fun s => if s = "r1" then some ⟨.generating, none, none⟩ else none)
        "r1" = .notReady ∧
      DownloadResult.notReady ≠ .notFound :=
  (C5_download_gating
    (fun s => if s = "r1" then some ⟨.generating, none, none⟩ else none)
    "r1" ⟨.generating, none, none⟩ rfl).1 rfl

/-! ## Report generation handlers and client-side report status (C6, C7) -/

/-- The client-side report status union
(`src/web/lib/api-client.ts`, lines 71-77). -/
inductive RStatus where
  | generating
  | completed
  | error
deriving Repr, DecidableEq

/-- A client-side `ReportStatus` value: report id, state, optional
progress, optional download url, optional error message. -/
structure ReportStatusV where
  report_id : String
  status : RStatus
  progress : Option Nat
  download_url : Option String
  error : Option String
deriving Repr, DecidableEq

/-- `EnhancedChatInterface.handleGenerateReport` line 264:
`{ report_id, status: "generating" }`. -/
def enhancedGenerateInitialStatus (reportId : String) : ReportStatusV :=
  ⟨reportId, .generating, none, none, none⟩

/-- `AdvancedChatInterface.handleGenerateReport` line 516:
`{ report_id, status: "generating", progress: 0 }`. -/
def advancedGenerateInitialStatus (reportId : String) : ReportStatusV :=
  ⟨reportId, .generating, some 0, none, none⟩

/-- The status set by the 5-second poll callback (`checkStatus`) when the
status endpoint answers OK: completed, with the export download path. -/
def pollCompletedStatus (reportId : String) : ReportStatusV :=
  ⟨reportId, .completed, none, some ("/api/financial/export/" ++ reportId),
    none⟩

/-- The status set in the `catch` branch of `handleGenerateReport`:
error, with the caught message. -/
def generateFailedStatus (reportId msg : String) : ReportStatusV :=
  ⟨reportId, .error, none, none, some msg⟩

/-- The status set in `handleSend` when the chat response reports
`status === "report_generated"`: completed, with the *server-supplied*
`data.download_url` copied verbatim (it may be absent). -/
def chatReportGeneratedStatus (reportId : String)
    (downloadUrl : Option String) : ReportStatusV :=
  ⟨reportId, .completed, none, downloadUrl, none⟩

/-- Outcome of the synchronous phase of `handleGenerateReport`. -/
inductive GenerateOutcome where
  | validationError (msg : String)
  | started (initial : ReportStatusV)
deriving Repr, DecidableEq

/-- The synchronous phase of `EnhancedChatInterface.handleGenerateReport`
(lines 257-312): an empty selection is rejected with an error toast
before any job or status value is created; otherwise the status is set to
`generating` and the network call plus the 5-second poll run
asynchronously after this returns. -/
def handleGenerateReportSync (selectedFiles : List String)
    (reportId : String) : GenerateOutcome :=
  if selectedFiles.isEmpty then
    .validationError "Please select files to generate a report"
  else .started (enhancedGenerateInitialStatus reportId)

/-- The synchronous phase of `AdvancedChatInterface.handleGenerateReport`
(lines 509-564), identical but for `progress: 0`. -/
def advancedHandleGenerateReportSync (selectedFiles : List String)
    (reportId : String) : GenerateOutcome :=
  if selectedFiles.isEmpty then
    .validationError "Please select files to generate a report"
  else .started (advancedGenerateInitialStatus reportId)

/-- C6: an empty document set is rejected with a validation error before
any job is created, and a non-empty set immediately yields a job status
of `generating` (the analysis itself being the asynchronous continuation
that runs after this synchronous phase returns). -/
theorem C6_generate_validation (files : List String) (rid : String) :
    (files = [] →
      handleGenerateReportSync files rid
          = .validationError "Please select files to generate a report" ∧
        advancedHandleGenerateReportSync files rid
          = .validationError "Please select files to generate a report") ∧
    (files ≠ [] →
      handleGenerateReportSync files rid
          = .started (enhancedGenerateInitialStatus rid) ∧
        (enhancedGenerateInitialStatus rid).status = .generating ∧
        advancedHandleGenerateReportSync files rid
          = .started (advancedGenerateInitialStatus rid) ∧
        (advancedGenerateInitialStatus rid).status = .generating) := by
  constructor
  · intro h
    subst h
    exact ⟨rfl, rfl⟩
  · intro h
    have he : files.isEmpty = false := by
      simpa using h
    refine ⟨?_, rfl, ?_, rfl⟩
    · simp [handleGenerateReportSync, he]
    · simp [advancedHandleGenerateReportSync, he]

/-- Witness for `C6_generate_validation`: the empty selection and a
one-file selection. -/
theorem C6_witness :
    handleGenerateReportSync [] "report_1"
        = .validationError "Please select files to generate a report" ∧
    handleGenerateReportSync ["file_9"] "report_1"
        = .started (enhancedGenerateInitialStatus "report_1") :=
  ⟨((C6_generate_validation [] "report_1").1 rfl).1,
    ((C6_generate_validation ["file_9"] "report_1").2 (by decide)).1⟩

/-- The report-status values the report flow in the two chat components
constructs (`setReportStatus` call sites and the chat-response handler). -/
inductive ProducedByReportFlow : ReportStatusV → Prop where
  | enh (rid : String) : ProducedByReportFlow (enhancedGenerateInitialStatus rid)
  | adv (rid : String) : ProducedByReportFlow (advancedGenerateInitialStatus rid)
  | poll (rid : String) : ProducedByReportFlow (pollCompletedStatus rid)
  | failed (rid msg : String) :
      ProducedByReportFlow (generateFailedStatus rid msg)
  | chat (rid : String) (d : Option String) :
      ProducedByReportFlow (chatReportGeneratedStatus rid d)

/-- C7, counterexample: the chat-response producer copies the server's
`download_url` verbatim, so when the server omits it the flow stores a
status that is `completed` with no download reference — the "download
reference set iff completed" invariant fails. -/
theorem C7_counterexample :
    ProducedByReportFlow (chatReportGeneratedStatus "r1" none) ∧
    (chatReportGeneratedStatus "r1" none).status = .completed ∧
    (chatReportGeneratedStatus "r1" none).download_url = none :=
  ⟨.chat "r1" none, rfl, rfl⟩

/-- C7, amended: for every status value the report flow produces, the
error message is set iff the status is `error`, a set download reference
implies status `completed`, a `generating` status carries neither, and a
`completed` status carries a download reference except in the
chat-response producer when the server supplied none. -/
theorem C7_amended_status_invariant (s : ReportStatusV)
    (h : ProducedByReportFlow s) :
    (s.error.isSome ↔ s.status = .error) ∧
    (s.download_url.isSome → s.status = .completed) ∧
    (s.status = .generating → s.download_url = none ∧ s.error = none) ∧
    (s.status = .completed →
      s.download_url.isSome ∨ ∃ rid, s = chatReportGeneratedStatus rid none) := by
  cases h with
  | enh rid => simp [enhancedGenerateInitialStatus]
  | adv rid => simp [advancedGenerateInitialStatus]
  | poll rid => simp [pollCompletedStatus]
  | failed rid msg => simp [generateFailedStatus]
  | chat rid d =>
      cases d with
      | none =>
          refine ⟨by simp [chatReportGeneratedStatus], ?_, ?_, ?_⟩
          · intro hd
            simp [chatReportGeneratedStatus] at hd
          · intro hg
            simp [chatReportGeneratedStatus] at hg
          · exact fun _ => Or.inr ⟨rid, rfl⟩
      | some u => simp [chatReportGeneratedStatus]

/-- Witness for `C7_amended_status_invariant` at the poll producer. -/
theorem C7_witness :
    ((pollCompletedStatus "r7").error.isSome
        ↔ (pollCompletedStatus "r7").status = .error) ∧
    ((pollCompletedStatus "r7").download_url.isSome
        → (pollCompletedStatus "r7").status = .completed) ∧
    ((pollCompletedStatus "r7").status = .generating
        → (pollCompletedStatus "r7").download_url = none
          ∧ (pollCompletedStatus "r7").error = none) ∧
    ((pollCompletedStatus "r7").status = .completed
        → (pollCompletedStatus "r7").download_url.isSome
          ∨ ∃ rid, pollCompletedStatus "r7" = chatReportGeneratedStatus rid none) :=
  C7_amended_status_invariant (pollCompletedStatus "r7") (.poll "r7")

/-! ## Upload handler: locating the "Code" header row (C8) -/

/-- `String(cell).toLowerCase().includes('code')` for one cell. -/
def cellHasCode (c : String) : Bool :=
  strContains (jsToLower c) "code"

/-- `row.some(cell => String(cell).toLowerCase().includes('code'))`. -/
def rowHasCode (row : List String) : Bool :=
  row.any cellHasCode

/-- The `for (let i = 0; i < data.length; i++)` search of the upload
handler (src/web/app/api/financial/upload/route.ts, lines 25-32): the
index of the first row with a "code" cell, if any. -/
def findCodeRowAux : List (List String) → Nat → Option Nat
  | [], _ => none
  | r :: rs, i => if rowHasCode r then some i else findCodeRowAux rs (i + 1)

/-- `findCodeRowAux` started at index 0 (`startIndex` in the source). -/
def findCodeRow (data : List (List String)) : Option Nat :=
  findCodeRowAux data 0

/-- The upload handler's table extraction: a missing "Code" row is a 400
validation error; otherwise the found row becomes the header row
(`headers = data[startIndex]`) and everything after it the data rows
(`rows = data.slice(startIndex + 1)`). -/
def uploadLocateTable (data : List (List String)) :
    Except String (List String × List (List String)) :=
  match findCodeRow data with
  | none => .error "Could not find \"Code\" column in the Excel file"
  | some i => .ok (data.getD i [], data.drop (i + 1))

/-- Numeric value of a digit string (most significant digit first). -/
def digitsVal (ds : List Char) : Nat :=
  ds.foldl (fun a c => a * 10 + (c.toNat - '0'.toNat)) 0

/-- Does a column header match a year pattern: exactly four digits after
trimming? -/
def isYearHeader (h : String) : Bool :=
  (trimChars h.data).length == 4 && (trimChars h.data).all Char.isDigit

/-- Modelled from the spec: the year-column detection of §4.4 ("column
identity ... must be detected heuristically — prefer columns whose header
matches a year pattern (four digits)").  The component performing it (the
FastAPI analysis backend; in the `upload/route.ts` path, the
prompt-instructed model) is not under `src/`.  The first two headers
matching the year pattern are the year columns, the smaller year being
the previous year and the larger the current year. -/
def detectYearColumns (headers : List String) : Option (Nat × Nat) :=
  match headers.enum.filter (fun p => isYearHeader p.2) with
  | (i, a) :: (j, b) :: _ =>
      if digitsVal (trimChars a.data) ≤ digitsVal (trimChars b.data) then
        some (i, j)
      else some (j, i)
  | _ => none

theorem findCodeRowAux_append (pre : List (List String)) :
    ∀ n, (∀ r ∈ pre, rowHasCode r = false) →
    ∀ (hdr : List String) (rest : List (List String)), rowHasCode hdr = true →
    findCodeRowAux (pre ++ hdr :: rest) n = some (n + pre.length) := by
  induction pre with
  | nil =>
      intro n _ hdr rest hh
      simp [findCodeRowAux, hh]
  | cons r pre ih =>
      intro n hpre hdr rest hh
      have hr : rowHasCode r = false := hpre r (List.mem_cons_self r pre)
      have : findCodeRowAux ((r :: pre) ++ hdr :: rest) n
          = findCodeRowAux (pre ++ hdr :: rest) (n + 1) := by
        simp [findCodeRowAux, hr]
      rw [this, ih (n + 1) (fun x hx => hpre x (List.mem_cons_of_mem r hx))
        hdr rest hh]
      congr 1
      simp
      omega

theorem findCodeRowAux_none (data : List (List String)) :
    (∀ r ∈ data, rowHasCode r = false) →
    ∀ n, findCodeRowAux data n = none := by
  induction data with
  | nil => intro _ n; rfl
  | cons r rs ih =>
      intro h n
      have hr : rowHasCode r = false := h r (List.mem_cons_self r rs)
      simp only [findCodeRowAux, hr, Bool.false_eq_true, if_false]
      exact ih (fun x hx => h x (List.mem_cons_of_mem r hx)) (n + 1)

/-- C8: when the "Code" header row is the row at index 5 (no earlier row
containing "code" case-insensitively in any cell), the upload handler
locates exactly index 5 as the table start, takes that row as the header
row and all following rows as data; when the header's only year-pattern
columns are `2023` at column index 1 and `2024` at column index 2 (the
2nd and 3rd columns), the year-column detection uses exactly those as the
previous-year/current-year columns; and when no row anywhere contains
"code", the upload fails with the 400 validation error instead of
producing a report. -/
theorem C8_code_row_location :
    (∀ (pre : List (List String)) (hdr : List String)
        (rest : List (List String)),
      pre.length = 5 →
      (∀ r ∈ pre, rowHasCode r = false) →
      rowHasCode hdr = true →
      hdr.enum.filter (fun p => isYearHeader p.2) = [(1, "2023"), (2, "2024")] →
      findCodeRow (pre ++ hdr :: rest) = some 5 ∧
      uploadLocateTable (pre ++ hdr :: rest) = .ok (hdr, rest) ∧
      detectYearColumns hdr = some (1, 2)) ∧
    (∀ data : List (List String),
      (∀ r ∈ data, rowHasCode r = false) →
      uploadLocateTable data
        = .error "Could not find \"Code\" column in the Excel file") := by
  constructor
  · intro pre hdr rest hlen hpre hh hyears
    have hfind : findCodeRow (pre ++ hdr :: rest) = some 5 := by
      unfold findCodeRow
      rw [findCodeRowAux_append pre 0 hpre hdr rest hh, hlen]
    refine ⟨hfind, ?_, ?_⟩
    · unfold uploadLocateTable
      rw [hfind]
      show Except.ok ((pre ++ hdr :: rest).getD 5 [],
        (pre ++ hdr :: rest).drop (5 + 1)) = Except.ok (hdr, rest)
      have hget : (pre ++ hdr :: rest).getD 5 [] = hdr := by
        rw [← hlen]
        rw [List.getD_eq_getElem?_getD, List.getElem?_append_right
          (Nat.le_refl pre.length)]
        simp
      have hdrop : (pre ++ hdr :: rest).drop (5 + 1) = rest := by
        rw [← hlen, show pre.length + 1 = (pre ++ [hdr]).length by simp]
        rw [show pre ++ hdr :: rest = (pre ++ [hdr]) ++ rest by simp]
        exact List.drop_left (pre ++ [hdr]) rest
      rw [hget, hdrop]
    · unfold detectYearColumns
      rw [hyears]
      decide
  · intro data h
    unfold uploadLocateTable findCodeRow
    rw [findCodeRowAux_none data h 0]

/-- Witness for `C8_code_row_location`: a concrete sheet with five
preamble rows, the header `["Code", "2023", "2024"]` at index 5, and one
data row; and a concrete code-free sheet. -/
theorem C8_witness :
    (findCodeRow [["ACME Corp"], [], ["Annual figures"], [], [],
        ["Code", "2023", "2024"], ["1000", "50", "60"]] = some 5 ∧
      uploadLocateTable [["ACME Corp"], [], ["Annual figures"], [], [],
        ["Code", "2023", "2024"], ["1000", "50", "60"]]
        = .ok (["Code", "2023", "2024"], [["1000", "50", "60"]]) ∧
      detectYearColumns ["Code", "2023", "2024"] = some (1, 2)) ∧
    uploadLocateTable [["ACME Corp"], ["figures"]]
      = .error "Could not find \"Code\" column in the Excel file" :=
  ⟨C8_code_row_location.1 [["ACME Corp"], [], ["Annual figures"], [], []]
      ["Code", "2023", "2024"] [["1000", "50", "60"]]
      rfl (by decide) (by decide) (by decide),
    C8_code_row_location.2 [["ACME Corp"], ["figures"]] (by decide)⟩

/-! ## `ReportDisplay.renderTable`: the percentage-change column (C9) -/

/-- `String(x).replace(/[^0-9.-]/g, '')`: keep only digits, `.` and `-`. -/
def stripNonNumericChars (l : List Char) : List Char :=
  l.filter fun c => c.isDigit || c = '.' || c = '-'

/-- The optional leading sign of a JS numeric literal. -/
def parseSign : List Char → Bool × List Char
  | '-' :: r => (true, r)
  | '+' :: r => (false, r)
  | l => (false, l)

/-- JS `parseFloat`, restricted to strings over digits, `.` and `-`
(exactly what `stripNonNumericChars` can produce, where no exponent or
whitespace survives): the longest prefix of the form
`-? digits (. digits?)? | -? . digits` is the value, `none` is `NaN`.
Values are exact rationals; the claims proved about the change column do
not depend on binary-float rounding. -/
def parseFloatChars (l : List Char) : Option ℚ :=
  let s := parseSign l
  let ds := s.2.takeWhile Char.isDigit
  let fs :=
    match s.2.dropWhile Char.isDigit with
    | '.' :: r2 => r2.takeWhile Char.isDigit
    | _ => []
  if ds.isEmpty && fs.isEmpty then none
  else
    let mag : ℚ := (digitsVal ds : ℚ) + (digitsVal fs : ℚ) / ((10 : ℚ) ^ fs.length)
    some (if s.1 then -mag else mag)

/-- The per-row numeric coercion of `renderTable`
(`parseFloat(String(x).replace(/[^0-9.-]/g, '')) || 0`): strip, parse,
and map both `NaN` and `-0`/`0` to `0`. -/
def jsNum (s : String) : ℚ :=
  (parseFloatChars (stripNonNumericChars s.data)).getD 0

/-- The change cell:
`previous !== 0 ? ((current - previous) / Math.abs(previous)) * 100 : 0`. -/
def renderChange (current previous : ℚ) : ℚ :=
  if previous ≠ 0 then ((current - previous) / |previous|) * 100 else 0

/-- A table row as `ReportDisplay.renderTable` receives it; the two year
values are the stringified form in which the component reads them
(`String(item.currentYear)`). -/
structure FinancialIndicator where
  indicator : String
  currentYear : String
  previousYear : String
deriving Repr, DecidableEq

/-- What one rendered row displays: the three stored values verbatim plus
the computed change. -/
structure DisplayedRowOut where
  indicator : String
  currentYear : String
  previousYear : String
  change : ℚ
deriving Repr, DecidableEq

/-- One iteration of `data.map((item, index) => ...)` in `renderTable`
(src/web/app/components/ReportDisplay.tsx, lines 62-88). -/
def renderTableRow (item : FinancialIndicator) : DisplayedRowOut :=
  { indicator := item.indicator
    currentYear := item.currentYear
    previousYear := item.previousYear
    change := renderChange (jsNum item.currentYear) (jsNum item.previousYear) }

theorem takeWhile_isDigit_dotdash (l : List Char)
    (h : ∀ c ∈ l, c = '.' ∨ c = '-') :
    l.takeWhile Char.isDigit = [] := by
  cases l with
  | nil => rfl
  | cons c r =>
      rcases h c (List.mem_cons_self c r) with rfl | rfl <;>
        simp [List.takeWhile]

theorem parseFloatChars_dotdash (l : List Char)
    (h : ∀ c ∈ l, c = '.' ∨ c = '-') : parseFloatChars l = none := by
  have hsub : ∀ c ∈ (parseSign l).2, c = '.' ∨ c = '-' := by
    cases l with
    | nil => intro c hc; cases hc
    | cons a r =>
        rcases h a (List.mem_cons_self a r) with rfl | rfl
        · intro c hc
          exact h c hc
        · intro c hc
          exact h c (List.mem_cons_of_mem _ hc)
  unfold parseFloatChars
  have hds : (parseSign l).2.takeWhile Char.isDigit = [] :=
    takeWhile_isDigit_dotdash _ hsub
  have hdw : ∀ c ∈ (parseSign l).2.dropWhile Char.isDigit, c = '.' ∨ c = '-' :=
    fun c hc => hsub c (List.dropWhile_sublist _ |>.mem hc)
  simp only [hds]
  cases hcase : (parseSign l).2.dropWhile Char.isDigit with
  | nil => simp
  | cons a r =>
      have ha := hdw a (by rw [hcase]; exact List.mem_cons_self a r)
      have hr : ∀ c ∈ r, c = '.' ∨ c = '-' := by
        intro c hc
        exact hdw c (by rw [hcase]; exact List.mem_cons_of_mem a hc)
      rcases ha with rfl | rfl
      · have hfs : List.takeWhile Char.isDigit r = [] :=
          takeWhile_isDigit_dotdash r hr
        simp [hfs]
      · simp

/-- C9: the rendered row displays the stored indicator and year values
unmutated; the numeric coercion maps every digit-free string (the
"non-numeric" strings, e.g. `N/A`) to zero; and a previous-year value
parsing to zero yields a change of exactly zero, the division being
guarded and never reached. -/
theorem C9_render_defensive (item : FinancialIndicator) :
    (renderTableRow item).indicator = item.indicator ∧
    (renderTableRow item).currentYear = item.currentYear ∧
    (renderTableRow item).previousYear = item.previousYear ∧
    (∀ s : String, (∀ c ∈ s.data, c.isDigit = false) → jsNum s = 0) ∧
    (jsNum item.previousYear = 0 → (renderTableRow item).change = 0) := by
  refine ⟨rfl, rfl, rfl, ?_, ?_⟩
  · intro s h
    have hdd : ∀ c ∈ stripNonNumericChars s.data, c = '.' ∨ c = '-' := by
      intro c hc
      rcases List.mem_filter.1 hc with ⟨hcs, hcp⟩
      have := h c hcs
      simp only [this, Bool.false_or] at hcp
      rcases Bool.or_eq_true_iff.1 hcp with h1 | h1
      · exact Or.inl (by simpa using h1)
      · exact Or.inr (by simpa using h1)
    unfold jsNum
    rw [parseFloatChars_dotdash _ hdd]
    rfl
  · intro hz
    show renderChange (jsNum item.currentYear) (jsNum item.previousYear) = 0
    rw [hz]
    simp [renderChange]

/-- Witness for `C9_render_defensive` at a row with a non-numeric current
year and a zero previous year. -/
theorem C9_witness :
    (renderTableRow ⟨"Total Assets", "N/A", "n.a."⟩).indicator
        = "Total Assets" ∧
    jsNum "N/A" = 0 ∧
    (renderTableRow ⟨"Total Assets", "N/A", "n.a."⟩).change = 0 :=
  ⟨(C9_render_defensive ⟨"Total Assets", "N/A", "n.a."⟩).1,
    (C9_render_defensive ⟨"Total Assets", "N/A", "n.a."⟩).2.2.2.1 "N/A"
      (by decide),
    (C9_render_defensive ⟨"Total Assets", "N/A", "n.a."⟩).2.2.2.2
      ((C9_render_defensive ⟨"Total Assets", "N/A", "n.a."⟩).2.2.2.1 "n.a."
        (by decide))⟩

/-! ## `transformTableData` of the upload proxy route (C10) -/

/-- A JavaScript/JSON value as `transformTableData` (src/unnamed/part_015,
lines 70-114) may receive it. -/
inductive JVal where
  | str (s : String)
  | num (q : ℚ)
  | bool (b : Bool)
  | null
  | obj (fields : List (String × JVal))
  | arr (elems : List JVal)

/-- JS falsiness of a value (`item[key] || default`). -/
def jFalsy : JVal → Bool
  | .null => true
  | .bool b => !b
  | .num q => decide (q = 0)
  | .str s => s.isEmpty
  | .obj _ => false
  | .arr _ => false

/-- `typeof item === 'object' && item !== null`: objects and arrays pass,
`null` (whose `typeof` is also `'object'`) is excluded. -/
def isNonNullObject : JVal → Bool
  | .obj _ => true
  | .arr _ => true
  | _ => false

/-- `Object.keys(item)`: field names of an object, index strings of an
array. -/
def jKeys : JVal → List String
  | .obj fs => fs.map Prod.fst
  | .arr l => (List.range l.length).map (fun i => toString i)
  | _ => []

/-- Property lookup `item[key]` for a string key. -/
def jGetStr : JVal → String → Option JVal
  | .obj fs, k => (fs.find? fun p => p.1 == k).map Prod.snd
  | .arr l, k => (l.enum.find? fun p => toString p.1 == k).map Prod.snd
  | _, _ => none

/-- Property lookup with a possibly-undefined key: JS coerces `undefined`
to the property name `"undefined"` (`item[undefined]`). -/
def jGet (v : JVal) (k : Option String) : Option JVal :=
  jGetStr v (k.getD "undefined")

/-- JS `a || b` on an optional string key (`keys.find(...) || keys[i]`):
an empty string found is falsy and falls through to the fallback. -/
def jsKeyOr (x y : Option String) : Option String :=
  match x with
  | some k => if k.isEmpty then y else some k
  | none => y

/-- The `indicatorKey` computation of `transformTableData`. -/
def indicatorKey (keys : List String) : Option String :=
  jsKeyOr
    (keys.find? fun k =>
      strContains (jsToLower k) "indicator" || strContains (jsToLower k) "item"
        || strContains (jsToLower k) "name" || keys.indexOf k == 0)
    keys[0]?

/-- The `currentYearKey` computation of `transformTableData`. -/
def currentYearKey (keys : List String) : Option String :=
  jsKeyOr
    (keys.find? fun k =>
      strContains k "2024" || strContains (jsToLower k) "current"
        || strContains (jsToLower k) "this" || keys.indexOf k == 1)
    keys[1]?

/-- The `previousYearKey` computation of `transformTableData`. -/
def previousYearKey (keys : List String) : Option String :=
  jsKeyOr
    (keys.find? fun k =>
      strContains k "2023" || strContains (jsToLower k) "previous"
        || strContains (jsToLower k) "last" || keys.indexOf k == 2)
    keys[2]?

/-- One output record of `transformTableData`. -/
structure TransformedRow where
  indicator : JVal
  currentYear : JVal
  previousYear : JVal

/-- `value || default` on a possibly-absent cell value. -/
def jOrDefault (x : Option JVal) (d : JVal) : JVal :=
  match x with
  | none => d
  | some v => if jFalsy v then d else v

/-- The record returned for non-object elements and the fallbacks for
missing/falsy cells: `{indicator: 'Unknown', currentYear: 0,
previousYear: 0}`. -/
def defaultTransformedRow : TransformedRow :=
  ⟨.str "Unknown", .num 0, .num 0⟩

/-- The per-element body of `backendData.map((item) => ...)`. -/
def transformItem (item : JVal) : TransformedRow :=
  if isNonNullObject item then
    { indicator :=
        jOrDefault (jGet item (indicatorKey (jKeys item))) (.str "Unknown")
      currentYear :=
        jOrDefault (jGet item (currentYearKey (jKeys item))) (.num 0)
      previousYear :=
        jOrDefault (jGet item (previousYearKey (jKeys item))) (.num 0) }
  else defaultTransformedRow

/-- `transformTableData`: a non-array input yields `[]`
(`if (!Array.isArray(backendData)) return []`), an array is mapped
element-wise. -/
def transformTableData : JVal → List TransformedRow
  | .arr l => l.map transformItem
  | _ => []

/-- Each output field is either its default or a genuinely stored,
non-falsy cell value of the input element — the transform fabricates
nothing else. -/
def fieldFromItem (item d x : JVal) : Prop :=
  x = d ∨ ∃ k v, jGetStr item k = some v ∧ jFalsy v = false ∧ x = v

theorem jOrDefault_fieldFromItem (item : JVal) (k : Option String)
    (d : JVal) : fieldFromItem item d (jOrDefault (jGet item k) d) := by
  unfold jOrDefault jGet
  cases h : jGetStr item (k.getD "undefined") with
  | none => exact Or.inl rfl
  | some v =>
      by_cases hf : jFalsy v = true
      · simp only [hf, if_true]
        exact Or.inl rfl
      · have hf' : jFalsy v = false := by simpa using hf
        simp only [hf', Bool.false_eq_true, if_false]
        exact Or.inr ⟨k.getD "undefined", v, h, hf', rfl⟩

/-- C10: `transformTableData` is total (every equation below holds by
evaluation of a total function): every non-array input yields `[]`, an
array yields exactly one record per element, every non-object element
becomes the all-default record, and every field of every record is either
the default (`"Unknown"`, `0`, `0`) or a non-falsy stored cell value of
the element. -/
theorem C10_transform_total :
    (∀ v : JVal, (∀ l : List JVal, v ≠ .arr l) → transformTableData v = []) ∧
    (∀ l : List JVal, (transformTableData (.arr l)).length = l.length) ∧
    (∀ item : JVal, isNonNullObject item = false →
      transformItem item = defaultTransformedRow) ∧
    (∀ item : JVal,
      fieldFromItem item (.str "Unknown") (transformItem item).indicator ∧
      fieldFromItem item (.num 0) (transformItem item).currentYear ∧
      fieldFromItem item (.num 0) (transformItem item).previousYear) := by
  refine ⟨?_, ?_, ?_, ?_⟩
  · intro v h
    cases v with
    | arr l => exact absurd rfl (h l)
    | str s => rfl
    | num q => rfl
    | bool b => rfl
    | null => rfl
    | obj fs => rfl
  · intro l
    simp [transformTableData]
  · intro item h
    unfold transformItem
    rw [h]
    simp
  · intro item
    by_cases h : isNonNullObject item = true
    · refine ⟨?_, ?_, ?_⟩ <;>
        · unfold transformItem
          rw [h]
          simp only [if_true]
          exact jOrDefault_fieldFromItem item _ _
    · have h' : isNonNullObject item = false := by simpa using h
      unfold transformItem
      rw [h']
      simp only [Bool.false_eq_true, if_false]
      exact ⟨Or.inl rfl, Or.inl rfl, Or.inl rfl⟩

/-- Witness for `C10_transform_total` at concrete dynamic values. -/
theorem C10_witness :
    transformTableData (.str "oops") = [] ∧
    (transformTableData (.arr [.null, .str "x"])).length = 2 ∧
    transformItem (.str "y") = defaultTransformedRow ∧
    fieldFromItem (.obj [("Indicator", .str "Cash")]) (.str "Unknown")
      (transformItem (.obj [("Indicator", .str "Cash")])).indicator :=
  ⟨C10_transform_total.1 (.str "oops") (fun _ h => JVal.noConfusion h),
    C10_transform_total.2.1 [.null, .str "x"],
    C10_transform_total.2.2.1 (.str "y") rfl,
    (C10_transform_total.2.2.2 (.obj [("Indicator", .str "Cash")])).1⟩

end Spec2Proof
